import Mathlib

/-!
Verification of the resume PDF-generation server (`src/server.js`).

The development shallowly embeds the core of the program:
* the spacing resolver `getSpacing` (server.js lines 93-109),
* the markdown-subset transcoder `parseMarkdown` (lines 114-124),
* the HTML document composer `generateResumeHTML` (lines 89-234),
* the `/generate-pdf` request handler's control flow (lines 33-86),
  with the four puppeteer stages (launch, newPage, setContent, pdf)
  modelled by a success/failure oracle `BrowserEnv`.

JavaScript numbers that flow through the spacing configuration are
modelled as `Int` (the server only multiplies by 2 and divides by 2;
`halfStr` reproduces JavaScript's decimal rendering of halves).
Strings are Lean `String`s; no HTML escaping happens anywhere in the
source, and none is modelled.
-/

namespace PdfGen

/-- The five required colors of a template (`template.colors`). -/
structure ColorScheme where
  primary : String
  secondary : String
  accent : String
  background : String
  text : String
deriving DecidableEq

/-- A visual template descriptor.  `layout` and `spacing` may be absent
(`template?.layout`, `template?.spacing` in the source); `fontFamily`
may be absent and is defaulted in the composer. -/
structure SpacingOverrides where
  sectionMargin : Option Int
  itemMargin : Option Int
deriving DecidableEq

structure Template where
  id : String
  name : String
  colors : ColorScheme
  fontFamily : Option String
  spacing : Option SpacingOverrides
  layout : Option String
deriving DecidableEq

/-- Fully resolved spacing values. -/
structure Spacing where
  sectionMargin : Int
  itemMargin : Int
deriving DecidableEq

/-- Resume payload as used by `generateResumeHTML` (well-formed case:
`keywords` present). -/
structure ResumeData where
  content : String
  keywords : List String
  template : Template
deriving DecidableEq

/-- The default spacing table of `getSpacing`, including the
`spacingDefaults[layout] || spacingDefaults.standard` fallback for
unknown keys (server.js lines 97-103). -/
def spacingDefault (layout : String) : Spacing :=
  if layout = "standard" then ⟨20, 10⟩
  else if layout = "compact" then ⟨15, 5⟩
  else if layout = "spacious" then ⟨25, 15⟩
  else ⟨20, 10⟩

/-- JavaScript `override || dflt` on a possibly-absent number: a present
non-zero value wins, `undefined` and `0` fall back to the default. -/
def orDefault (ov : Option Int) (dflt : Int) : Int :=
  match ov with
  | none => dflt
  | some v => if v = 0 then dflt else v

/-- `template?.layout || 'standard'`: absent or empty-string layout keys
are replaced by `"standard"`. -/
def layoutKey (t : Template) : String :=
  match t.layout with
  | none => "standard"
  | some s => if s = "" then "standard" else s

/-- The spacing resolver (server.js lines 93-109), restricted to layout
keys whose lookup in the defaults object literal either finds an own
property or finds nothing — on that domain `spacingDefault` models
`spacingDefaults[layout] || spacingDefaults.standard` exactly.  The
unrestricted JavaScript lookup, which can also hit truthy members
inherited from `Object.prototype`, is `getSpacingJS` below. -/
def getSpacing (t : Template) : Spacing :=
  let layout := layoutKey t
  let customSpacing := t.spacing.getD ⟨none, none⟩
  let defaultSpacing := spacingDefault layout
  ⟨orDefault customSpacing.sectionMargin defaultSpacing.sectionMargin,
   orDefault customSpacing.itemMargin defaultSpacing.itemMargin⟩

/-- The property names that every plain object literal inherits from
`Object.prototype` (ECMA-262, including the Annex B accessors).  For
each of these, `spacingDefaults[layout]` yields the inherited member —
a function, or `Object.prototype` itself for `__proto__` — which is
truthy, so the `|| spacingDefaults.standard` fallback is skipped. -/
def objectProtoProps : List String :=
  ["constructor", "hasOwnProperty", "isPrototypeOf", "propertyIsEnumerable",
   "toLocaleString", "toString", "valueOf", "__proto__", "__defineGetter__",
   "__defineSetter__", "__lookupGetter__", "__lookupSetter__"]

/-- Result of the JavaScript property access `spacingDefaults[layout]`:
an own data property of the literal, a truthy member inherited from
`Object.prototype`, or `undefined`. -/
inductive DefaultsLookup where
  | own (sp : Spacing)
  | inherited
  | absent
deriving DecidableEq

/-- `spacingDefaults[layout]` with the full JavaScript property-lookup
semantics (own properties, then the prototype chain). -/
def spacingDefaultsLookup (layout : String) : DefaultsLookup :=
  if layout = "standard" then .own ⟨20, 10⟩
  else if layout = "compact" then .own ⟨15, 5⟩
  else if layout = "spacious" then .own ⟨25, 15⟩
  else if layout ∈ objectProtoProps then .inherited
  else .absent

/-- A spacing field as the source can actually produce it: `none` is
JavaScript `undefined`. -/
structure JsSpacing where
  sectionMargin : Option Int
  itemMargin : Option Int
deriving DecidableEq

/-- `override || dflt` when the default itself may be `undefined`. -/
def orDefaultU (ov : Option Int) (dflt : Option Int) : Option Int :=
  match ov with
  | none => dflt
  | some v => if v = 0 then dflt else some v

/-- The spacing resolver (server.js lines 93-109) with the full
JavaScript lookup semantics.  When `spacingDefaults[layout]` hits an
inherited `Object.prototype` member, that truthy value becomes
`defaultSpacing`, its `sectionMargin`/`itemMargin` accesses yield
`undefined`, and absent overrides resolve to `undefined` margins. -/
def getSpacingJS (t : Template) : JsSpacing :=
  let layout := layoutKey t
  let customSpacing := t.spacing.getD ⟨none, none⟩
  match spacingDefaultsLookup layout with
  | .own dflt =>
      ⟨some (orDefault customSpacing.sectionMargin dflt.sectionMargin),
       some (orDefault customSpacing.itemMargin dflt.itemMargin)⟩
  | .inherited =>
      ⟨orDefaultU customSpacing.sectionMargin none,
       orDefaultU customSpacing.itemMargin none⟩
  | .absent =>
      ⟨some (orDefault customSpacing.sectionMargin 20),
       some (orDefault customSpacing.itemMargin 10)⟩

/-! The markdown-subset transcoder.  Each of the five `/^pat (.*$)/gm`
rules of the source rewrites, independently, every line that starts
with its pattern; the final rule replaces every occurrence of two
consecutive `'\n'` characters, left to right, by two `<br/>` elements.
Per ECMA-262, a multiline `^` matches at the start and after every
LineTerminator code point (`'\n'`, `'\r'`, U+2028, U+2029), `$`
matches before every LineTerminator and at the end, and `.` matches no
LineTerminator — so the lines of these rules are the maximal
terminator-free segments, and `(.*$)` captures exactly the remainder
of such a segment. -/

/-- Boolean list-prefix test (used to model the `^pat` anchors). -/
def startsWithL : List Char → List Char → Bool
  | [], _ => true
  | _ :: _, [] => false
  | p :: ps, c :: cs => p == c && startsWithL ps cs

/-- Boolean substring occurrence test. -/
def containsL (pat : List Char) : List Char → Bool
  | [] => startsWithL pat []
  | c :: t => startsWithL pat (c :: t) || containsL pat t

/-- The four ECMAScript LineTerminator code points: multiline `^` and
`$` anchor around each of them, and `.` matches none of them. -/
def isLineTerm (c : Char) : Bool :=
  c == '\n' || c == '\r' || c == '\u2028' || c == '\u2029'

/-- Split a text into its successive regex lines, each segment paired
with the single LineTerminator that ends it (empty for the last line).
Every terminator code point ends a line on its own, so `"\r\n"`
encloses an empty line between the two, exactly as multiline `^`/`$`
see it. -/
def toLines : List Char → List (List Char × List Char)
  | [] => [([], [])]
  | c :: rest =>
    if isLineTerm c then ([], [c]) :: toLines rest
    else
      match toLines rest with
      | [] => [([c], [])]
      | (seg, term) :: ls => (c :: seg, term) :: ls

/-- Reassemble the lines, keeping each original terminator. -/
def fromLines : List (List Char × List Char) → List Char
  | [] => []
  | (seg, term) :: ls => seg ++ term ++ fromLines ls

/-- One `/^pre (.*$)/gm` rule applied to a single line segment: if the
segment starts with `pre`, the whole segment (which is exactly what
`(.*$)` captures, since `.` stops at every LineTerminator) is replaced
by the opening tag, the remainder of the segment, and the closing
tag. -/
def ruleLine (pre opn cls : List Char) (l : List Char) : List Char :=
  if startsWithL pre l then opn ++ l.drop pre.length ++ cls else l

/-- One `/^pre (.*$)/gm` rule applied to the whole text: each line
segment is rewritten in place, terminators preserved. -/
def applyRule (pre opn cls : List Char) (s : List Char) : List Char :=
  fromLines ((toLines s).map (fun p => (ruleLine pre opn cls p.1, p.2)))

/-- `replace(/\n\n/g, '<br/><br/>')`: leftmost-first, non-overlapping. -/
def replDD : List Char → List Char
  | [] => []
  | [c] => [c]
  | c :: d :: rest =>
    if c = '\n' && d = '\n'
    then '<' :: 'b' :: 'r' :: '/' :: '>' :: '<' :: 'b' :: 'r' :: '/' :: '>' :: replDD rest
    else c :: replDD (d :: rest)

/-- Does the text contain two consecutive newline characters? -/
def hasDD : List Char → Bool
  | [] => false
  | [_] => false
  | c :: d :: rest => (c = '\n' && d = '\n') || hasDD (d :: rest)

/-- The five line rules in source order followed by the blank-line
replacement (server.js lines 117-123). -/
def mdPipeline (s : List Char) : List Char :=
  replDD
    (applyRule ['-', ' '] "<li>".data "</li>".data
      (applyRule ['*', ' '] "<li>".data "</li>".data
        (applyRule ['#', '#', '#', ' '] "<h3>".data "</h3>".data
          (applyRule ['#', '#', ' '] "<h2>".data "</h2>".data
            (applyRule ['#', ' '] "<h1>".data "</h1>".data s)))))

/-- The markdown-subset transcoder (server.js lines 114-124).
`if (!content) return ''` — the only falsy `String` is `""`. -/
def parseMarkdown (content : String) : String :=
  if content = "" then "" else ⟨mdPipeline content.data⟩

/-! The document composer.  `generateResumeHTML` below reproduces the
template literal of server.js lines 127-231 character for character;
the literal is cut into named chunks exactly at the positions of the
JavaScript interpolations (plus two extra cuts inside the `.keyword`
rule, used by the decomposition proofs).  JavaScript renders the
integers `itemMargin * 2`, `itemMargin` and `sectionMargin` with
`toString`, and `itemMargin / 2` with a trailing `.5` when odd. -/

/-- JavaScript's decimal rendering of `n / 2` for an integer `n`
(`5 / 2` prints `2.5`, `-5 / 2` prints `-2.5`). -/
def halfStr (n : Int) : String :=
  if n % 2 = 0 then toString (n / 2) else toString (Int.tdiv n 2) ++ ".5"

/-- `template.fontFamily || 'Arial, sans-serif'`. -/
def fontOf (t : Template) : String :=
  match t.fontFamily with
  | none => "Arial, sans-serif"
  | some f => if f = "" then "Arial, sans-serif" else f

/-- One keyword chip (the map callback of lines 212-213 / 222-223). -/
def chipSpan (k : String) : String :=
  "<span class=\"keyword\">" ++ k ++ "</span>"

/-- `keywords.map(...).join('')`. -/
def chipsHtml (ks : List String) : String :=
  String.join (ks.map chipSpan)

/-- Document text from the start of the template literal up to the
`background-color` declaration of the `.keyword` rule. -/
def stylePre (t : Template) (sp : Spacing) : String :=
  "\n    <!DOCTYPE html>\n    <html>\n    <head>\n      <meta charset=\"utf-8\">\n      <title>Resume</title>\n      <style>\n        body \x7b\n          font-family: "
  ++ fontOf t
  ++ ";\n          color: "
  ++ t.colors.text
  ++ ";\n          background-color: "
  ++ t.colors.background
  ++ ";\n          margin: 0;\n          padding: 20px;\n        \x7d\n        .container \x7b\n          max-width: 800px;\n          margin: 0 auto;\n          padding: 30px;\n          border-top: 6px solid "
  ++ t.colors.primary
  ++ ";\n        \x7d\n        h1 \x7b\n          color: "
  ++ t.colors.primary
  ++ ";\n          font-size: 24px;\n          margin-bottom: "
  ++ toString (sp.itemMargin * 2)
  ++ "px;\n        \x7d\n        h2 \x7b\n          color: "
  ++ t.colors.secondary
  ++ ";\n          font-size: 18px;\n          margin-bottom: "
  ++ toString sp.itemMargin
  ++ "px;\n          border-bottom: 1px solid #eee;\n          padding-bottom: 5px;\n        \x7d\n        h3 \x7b\n          font-size: 16px;\n          margin-bottom: "
  ++ halfStr sp.itemMargin
  ++ "px;\n        \x7d\n        p \x7b\n          margin-bottom: "
  ++ toString sp.itemMargin
  ++ "px;\n        \x7d\n        ul \x7b\n          margin-bottom: "
  ++ toString sp.itemMargin
  ++ "px;\n        \x7d\n        li \x7b\n          margin-bottom: "
  ++ halfStr sp.itemMargin
  ++ "px;\n        \x7d\n        .keywords \x7b\n          margin-top: "
  ++ toString sp.sectionMargin
  ++ "px;\n        \x7d\n        .keyword \x7b\n          display: inline-block;\n          "

/-- `background-color: <accent>20;` — accent fill at hex alpha `20`. -/
def accentFillRule (t : Template) : String :=
  "background-color: " ++ t.colors.accent ++ "20;"

/-- Document text between the fill and border declarations. -/
def styleMid (t : Template) : String :=
  "\n          color: " ++ t.colors.accent ++ ";\n          "

/-- `border: 1px solid <accent>40;` — accent border at hex alpha `40`. -/
def accentBorderRule (t : Template) : String :=
  "border: 1px solid " ++ t.colors.accent ++ "40;"

/-- Rest of the `.keyword` rule, up to the conditional flex slot. -/
def stylePost : String :=
  "\n          border-radius: 4px;\n          padding: 4px 8px;\n          margin-right: 8px;\n          margin-bottom: 8px;\n          font-size: 12px;\n        \x7d\n        "

/-- The conditional two-column ruleset (server.js lines 186-199),
emitted only when `template.layout === 'sidebar'`. -/
def styleFlexRuleset : String :=
  "\n          .resume-content \x7b\n            display: flex;\n          \x7d\n          .main-content \x7b\n            flex: 2;\n            padding-right: 20px;\n          \x7d\n          .sidebar \x7b\n            flex: 1;\n            border-left: 1px solid #eee;\n            padding-left: 20px;\n          \x7d\n        "

/-- Document text between the flex slot and the body slot. -/
def styleClose : String :=
  "\n      </style>\n    </head>\n    <body>\n      <div class=\"container\">\n        "

/-- Two-region body variant (server.js lines 205-217). -/
def sidebarBody (d : ResumeData) : String :=
  "<div class=\"resume-content\">\n              <div class=\"main-content\">\n                "
  ++ parseMarkdown d.content
  ++ "\n              </div>\n              <div class=\"sidebar\">\n                <h2>Key Skills</h2>\n                <div class=\"keywords\">\n                  "
  ++ chipsHtml d.keywords
  ++ "\n                </div>\n              </div>\n            </div>"

/-- Linear body variant (server.js lines 218-226). -/
def linearBody (d : ResumeData) : String :=
  "<div>\n              "
  ++ parseMarkdown d.content
  ++ "\n              <div class=\"keywords\">\n                <h2>Key Skills</h2>\n                "
  ++ chipsHtml d.keywords
  ++ "\n              </div>\n            </div>"

/-- Document text after the body slot, to the end of the literal. -/
def docClose : String :=
  "\n      </div>\n    </body>\n    </html>\n  "

/-- The document composer (server.js lines 89-234). -/
def generateResumeHTML (d : ResumeData) : String :=
  stylePre d.template (getSpacing d.template)
  ++ accentFillRule d.template
  ++ styleMid d.template
  ++ accentBorderRule d.template
  ++ stylePost
  ++ (if d.template.layout = some "sidebar" then styleFlexRuleset else "")
  ++ styleClose
  ++ (if d.template.layout = some "sidebar" then sidebarBody d else linearBody d)
  ++ docClose

/-- Spec-side description of the sidebar variant (spec 4.3/4.4), for the
refinement comparison: the same stylesheet with the two-column ruleset
present and the two-region body. -/
def htmlSidebarDoc (d : ResumeData) : String :=
  stylePre d.template (getSpacing d.template)
  ++ accentFillRule d.template
  ++ styleMid d.template
  ++ accentBorderRule d.template
  ++ stylePost
  ++ styleFlexRuleset
  ++ styleClose
  ++ sidebarBody d
  ++ docClose

/-- Spec-side description of the linear variant (spec 4.3/4.4), for the
refinement comparison: the flex ruleset entirely absent and the single
linear body region. -/
def htmlLinearDoc (d : ResumeData) : String :=
  stylePre d.template (getSpacing d.template)
  ++ accentFillRule d.template
  ++ styleMid d.template
  ++ accentBorderRule d.template
  ++ stylePost
  ++ styleClose
  ++ linearBody d
  ++ docClose

/-! The `/generate-pdf` request handler (server.js lines 33-86).  The
four awaited puppeteer stages are modelled by a `BrowserEnv` oracle
telling which of them succeed; a stage that fails throws, control jumps
to the `catch` block, and — as in the source — nothing in the `catch`
block closes the browser.  `browser.close()` is reached only after a
successful `page.pdf()` (line 71). -/

/-- Outcome oracle for the four awaited puppeteer operations. -/
structure BrowserEnv where
  launchOk : Bool
  newPageOk : Bool
  setContentOk : Bool
  pdfOk : Bool
deriving DecidableEq

/-- Resume payload as it arrives on the wire: `keywords` may be absent,
in which case `resumeData.keywords.map` throws a `TypeError`. -/
structure RawResume where
  content : String
  keywords : Option (List String)
  template : Template
deriving DecidableEq

/-- The JSON request body: both top-level fields may be absent. -/
structure ReqBody where
  resumeData : Option RawResume
  templateId : Option String
deriving DecidableEq

/-- Message of the `TypeError` thrown by `resumeData.keywords.map` when
`keywords` is `undefined` (used only as an opaque tag). -/
def mapUndefinedMsg : String :=
  "Cannot read properties of undefined (reading map)"

/-- Abstract failure messages of the four puppeteer stages. -/
def launchFailMsg : String := "failed to launch the browser process"

def newPageFailMsg : String := "failed to open a new page"

def setContentFailMsg : String := "navigation failed"

def pdfFailMsg : String := "PDF capture failed"

/-- Abstract PDF capture: the bytes produced from a rendered document
(opaque model of `page.pdf`). -/
def pdfBytes (html : String) : String := "%PDF%" ++ html

/-- `generateResumeHTML(resumeData)` on the raw payload: throws the
`TypeError` if `keywords` is absent, otherwise returns the document. -/
def composeRaw (r : RawResume) : Except String String :=
  match r.keywords with
  | none => .error mapUndefinedMsg
  | some ks => .ok (generateResumeHTML ⟨r.content, ks, r.template⟩)

/-- HTTP responses the handler can produce. -/
inductive PdfResponse where
  | badRequest (error : String)
  | okPdf (pdf : String)
  | serverError (error : String) (message : String)
deriving DecidableEq

/-- Result of one handler run: the response, whether `puppeteer.launch`
succeeded (a browser instance was acquired), and whether
`browser.close()` was executed. -/
structure HandlerResult where
  response : PdfResponse
  launched : Bool
  closed : Bool
deriving DecidableEq

/-- The `/generate-pdf` handler's control flow (server.js lines 33-86).
Validation: `!resumeData || !templateId` — an absent `resumeData`, an
absent `templateId` or the empty string (the only falsy string) are
rejected with the 400 response.  The HTML is composed before the
browser is launched (line 46 precedes line 49).  Each stage failure
jumps to the `catch` block, which answers with the 500 response and
does not close the browser. -/
def handleGeneratePdf (env : BrowserEnv) (body : ReqBody) : HandlerResult :=
  match body.resumeData, body.templateId with
  | none, _ => ⟨.badRequest "Missing required fields", false, false⟩
  | some _, none => ⟨.badRequest "Missing required fields", false, false⟩
  | some rd, some tid =>
    if tid = "" then ⟨.badRequest "Missing required fields", false, false⟩
    else
      match composeRaw rd with
      | .error msg => ⟨.serverError "Failed to generate PDF" msg, false, false⟩
      | .ok html =>
        if env.launchOk = false then
          ⟨.serverError "Failed to generate PDF" launchFailMsg, false, false⟩
        else if env.newPageOk = false then
          ⟨.serverError "Failed to generate PDF" newPageFailMsg, true, false⟩
        else if env.setContentOk = false then
          ⟨.serverError "Failed to generate PDF" setContentFailMsg, true, false⟩
        else if env.pdfOk = false then
          ⟨.serverError "Failed to generate PDF" pdfFailMsg, true, false⟩
        else
          ⟨.okPdf (pdfBytes html), true, true⟩

/-! Sample inputs used by concrete parts of theorems and witnesses. -/

def sampleColors : ColorScheme :=
  ⟨"#111111", "#222222", "#333333", "#ffffff", "#000000"⟩

def sampleTemplate (layout : String) : Template :=
  ⟨"t1", "Sample", sampleColors, none, none, some layout⟩

def sampleData (layout : String) : ResumeData :=
  ⟨"# Hi", ["X"], sampleTemplate layout⟩

/-! Helper lemmas about the transcoder's building blocks. -/

theorem toLines_ne_nil (s : List Char) : toLines s ≠ [] := by
  cases s with
  | nil => simp [toLines]
  | cons c rest =>
    simp only [toLines]
    split
    · simp
    · split <;> simp

theorem fromLines_toLines (s : List Char) : fromLines (toLines s) = s := by
  induction s with
  | nil => simp [toLines, fromLines]
  | cons c rest ih =>
    simp only [toLines]
    by_cases h : isLineTerm c
    · rw [if_pos h]
      simp [fromLines, ih]
    · rw [if_neg h]
      rcases htl : toLines rest with _ | ⟨⟨seg, term⟩, ls⟩
      · exact absurd htl (toLines_ne_nil rest)
      · rw [htl] at ih
        simp only [fromLines] at ih ⊢
        simp [ih]

theorem toLines_no_term {l : List Char} (h : ∀ c ∈ l, isLineTerm c = false) :
    toLines l = [(l, [])] := by
  induction l with
  | nil => simp [toLines]
  | cons c rest ih =>
    rw [toLines, if_neg (by simp [h c (List.mem_cons_self c rest)]),
      ih (fun x hx => h x (List.mem_cons_of_mem c hx))]

theorem hasDD_of_no_newline {s : List Char} (h : '\n' ∉ s) :
    hasDD s = false := by
  induction s with
  | nil => simp [hasDD]
  | cons c rest ih =>
    simp only [List.mem_cons, not_or] at h
    cases rest with
    | nil => simp [hasDD]
    | cons d u =>
      rw [hasDD]
      have hc : (c = '\n') = False := by simp [Ne.symm h.1]
      simp only [hc, decide_False, Bool.false_and, Bool.false_or]
      exact ih h.2

theorem replDD_id {s : List Char} (h : hasDD s = false) : replDD s = s := by
  induction s using replDD.induct with
  | case1 => simp [replDD]
  | case2 c => simp [replDD]
  | case3 c d rest hcd ih =>
    rw [hasDD] at h
    rw [hcd] at h
    simp at h
  | case4 c d rest hcd ih =>
    rw [hasDD] at h
    rcases Bool.or_eq_false_iff.mp h with ⟨h1, h2⟩
    rw [replDD, if_neg (by simp_all), ih h2]

theorem ruleLine_id {pre opn cls l : List Char}
    (h : startsWithL pre l = false) : ruleLine pre opn cls l = l := by
  simp [ruleLine, h]

theorem applyRule_id {pre opn cls : List Char} {s : List Char}
    (h : ∀ p ∈ toLines s, startsWithL pre p.1 = false) :
    applyRule pre opn cls s = s := by
  unfold applyRule
  have hmap : ∀ p ∈ toLines s, (ruleLine pre opn cls p.1, p.2) = p := by
    intro p hp
    rw [ruleLine_id (h p hp)]
  rw [List.map_congr_left hmap]
  rw [show (List.map (fun p => p) (toLines s)) = toLines s from List.map_id _]
  exact fromLines_toLines s

theorem applyRule_single {pre opn cls : List Char} {l : List Char}
    (h : ∀ c ∈ l, isLineTerm c = false) :
    applyRule pre opn cls l = ruleLine pre opn cls l := by
  unfold applyRule
  rw [toLines_no_term h]
  simp [fromLines]

/-! Helper lemmas about the composer. -/

theorem append_empty_str (s t : String) : s ++ "" ++ t = s ++ t := by
  apply String.ext
  simp [String.data_append]

theorem genHTML_sidebar (d : ResumeData) (h : d.template.layout = some "sidebar") :
    generateResumeHTML d = htmlSidebarDoc d := by
  rw [generateResumeHTML, htmlSidebarDoc, h]
  simp

theorem genHTML_linear (d : ResumeData) (h : ¬d.template.layout = some "sidebar") :
    generateResumeHTML d = htmlLinearDoc d := by
  rw [generateResumeHTML, htmlLinearDoc, if_neg h, if_neg h]
  simp [append_empty_str]

theorem startsWithL_head_ne {p c : Char} (ps cs : List Char) (h : (p == c) = false) :
    startsWithL (p :: ps) (c :: cs) = false := by
  rw [startsWithL, h, Bool.false_and]

theorem noTerm_cons {c : Char} {r : List Char} (hc : isLineTerm c = false)
    (hr : ∀ x ∈ r, isLineTerm x = false) :
    ∀ x ∈ c :: r, isLineTerm x = false := by
  intro x hx
  rcases List.mem_cons.mp hx with rfl | hx2
  · exact hc
  · exact hr x hx2

theorem noTerm_li_wrap {r : List Char} (hr : ∀ c ∈ r, isLineTerm c = false) :
    ∀ c ∈ "<li>".data ++ r ++ "</li>".data, isLineTerm c = false := by
  have h1 : ∀ c ∈ "<li>".data, isLineTerm c = false := by decide
  have h2 : ∀ c ∈ "</li>".data, isLineTerm c = false := by decide
  intro c hc
  rcases List.mem_append.mp hc with hc1 | hc2
  · rcases List.mem_append.mp hc1 with hc3 | hc4
    · exact h1 c hc3
    · exact hr c hc4
  · exact h2 c hc2

theorem no_newline_of_noTerm {s : List Char}
    (h : ∀ c ∈ s, isLineTerm c = false) : '\n' ∉ s :=
  fun hm => absurd (h '\n' hm) (by decide)

theorem mdPipeline_dash {r : List Char} (hr : ∀ c ∈ r, isLineTerm c = false) :
    mdPipeline ('-' :: ' ' :: r) = "<li>".data ++ r ++ "</li>".data := by
  have hl : ∀ c ∈ ('-' :: ' ' :: r), isLineTerm c = false :=
    noTerm_cons (by decide) (noTerm_cons (by decide) hr)
  unfold mdPipeline
  rw [applyRule_single hl, ruleLine_id (startsWithL_head_ne _ _ (by decide))]
  rw [applyRule_single hl, ruleLine_id (startsWithL_head_ne _ _ (by decide))]
  rw [applyRule_single hl, ruleLine_id (startsWithL_head_ne _ _ (by decide))]
  rw [applyRule_single hl, ruleLine_id (startsWithL_head_ne _ _ (by decide))]
  rw [applyRule_single hl,
    show ruleLine ['-', ' '] "<li>".data "</li>".data ('-' :: ' ' :: r)
      = "<li>".data ++ r ++ "</li>".data from rfl]
  exact replDD_id (hasDD_of_no_newline (no_newline_of_noTerm (noTerm_li_wrap hr)))

theorem mdPipeline_star {r : List Char} (hr : ∀ c ∈ r, isLineTerm c = false) :
    mdPipeline ('*' :: ' ' :: r) = "<li>".data ++ r ++ "</li>".data := by
  have hl : ∀ c ∈ ('*' :: ' ' :: r), isLineTerm c = false :=
    noTerm_cons (by decide) (noTerm_cons (by decide) hr)
  have hwrap : ∀ c ∈ "<li>".data ++ r ++ "</li>".data, isLineTerm c = false :=
    noTerm_li_wrap hr
  unfold mdPipeline
  rw [applyRule_single hl, ruleLine_id (startsWithL_head_ne _ _ (by decide))]
  rw [applyRule_single hl, ruleLine_id (startsWithL_head_ne _ _ (by decide))]
  rw [applyRule_single hl, ruleLine_id (startsWithL_head_ne _ _ (by decide))]
  have hne : startsWithL ['-', ' '] ("<li>".data ++ r ++ "</li>".data) = false := by
    rw [show "<li>".data ++ r ++ "</li>".data
        = '<' :: (("li>".data ++ r) ++ "</li>".data) from rfl]
    exact startsWithL_head_ne _ _ (by decide)
  rw [applyRule_single hl,
    show ruleLine ['*', ' '] "<li>".data "</li>".data ('*' :: ' ' :: r)
      = "<li>".data ++ r ++ "</li>".data from rfl]
  rw [applyRule_single hwrap, ruleLine_id hne]
  exact replDD_id (hasDD_of_no_newline (no_newline_of_noTerm hwrap))

theorem mk_ne_empty (c : Char) (r : List Char) : (⟨c :: r⟩ : String) ≠ "" := by
  intro he
  simpa using congrArg String.data he

/-- C5: transcoding `"- Item A\n- Item B"` yields exactly the two bare
list items `<li>Item A</li>` and `<li>Item B</li>` in order (separated
by the surviving newline), with no `<ul>`/`<ol>` container anywhere in
the output; in general any line — a maximal LineTerminator-free
segment, since `(.*$)` stops at every LineTerminator — starting with
`"- "` or `"* "` is rewritten to the bare `<li>` fragment wrapping the
rest of that line, as the `"- A\rB"` conjunct illustrates for a
carriage-return-terminated line. -/
theorem c5_list_items :
    parseMarkdown "- Item A\n- Item B" = "<li>Item A</li>\n<li>Item B</li>" ∧
    containsL "<ul".data (parseMarkdown "- Item A\n- Item B").data = false ∧
    containsL "<ol".data (parseMarkdown "- Item A\n- Item B").data = false ∧
    parseMarkdown "- A\rB" = "<li>A</li>\rB" ∧
    (∀ r : List Char, (∀ c ∈ r, isLineTerm c = false) →
      parseMarkdown ⟨'-' :: ' ' :: r⟩ = ⟨"<li>".data ++ r ++ "</li>".data⟩ ∧
      parseMarkdown ⟨'*' :: ' ' :: r⟩ = ⟨"<li>".data ++ r ++ "</li>".data⟩) := by
  refine ⟨by decide, by decide, by decide, by decide, fun r hr => ⟨?_, ?_⟩⟩
  · rw [parseMarkdown, if_neg (mk_ne_empty _ _)]
    exact congrArg String.mk (mdPipeline_dash hr)
  · rw [parseMarkdown, if_neg (mk_ne_empty _ _)]
    exact congrArg String.mk (mdPipeline_star hr)

/-- C5 witness: the general part evaluated at the concrete remainder
`"Item"`. -/
theorem c5_list_items_witness :
    parseMarkdown "- Item" = "<li>Item</li>" ∧ parseMarkdown "* Item" = "<li>Item</li>" := by
  have h := c5_list_items.2.2.2.2 ['I', 't', 'e', 'm'] (by decide)
  exact ⟨h.1, h.2⟩

/-- C6: transcoding `"## Sub\n\nBody"` yields the level-2 heading
wrapping `Sub`, then two `<br/>` elements, then `Body`. -/
theorem c6_heading_blank :
    parseMarkdown "## Sub\n\nBody" = "<h2>Sub</h2><br/><br/>Body" := by decide

/-- C7: the transcoder is the identity on any non-empty content none of
whose lines — the segments produced by splitting on every ECMAScript
LineTerminator, as multiline `^` sees them — starts with one of the
five recognized patterns, and that contains no two consecutive `'\n'`
characters; in particular HTML-special characters are not escaped. -/
theorem c7_identity (content : String) (h0 : content ≠ "")
    (h1 : ∀ p ∈ toLines content.data, startsWithL ['#', ' '] p.1 = false)
    (h2 : ∀ p ∈ toLines content.data, startsWithL ['#', '#', ' '] p.1 = false)
    (h3 : ∀ p ∈ toLines content.data, startsWithL ['#', '#', '#', ' '] p.1 = false)
    (h4 : ∀ p ∈ toLines content.data, startsWithL ['*', ' '] p.1 = false)
    (h5 : ∀ p ∈ toLines content.data, startsWithL ['-', ' '] p.1 = false)
    (h6 : hasDD content.data = false) :
    parseMarkdown content = content := by
  rw [parseMarkdown, if_neg h0]
  unfold mdPipeline
  rw [applyRule_id h1, applyRule_id h2, applyRule_id h3, applyRule_id h4,
    applyRule_id h5, replDD_id h6]

/-- C7 witness: a content string full of HTML-special characters passes
through unchanged, with no entity escaping; likewise a
carriage-return-separated content whose lines match no pattern. -/
theorem c7_identity_witness :
    parseMarkdown "a < b & \"c\" > d\n#none" = "a < b & \"c\" > d\n#none" ∧
    parseMarkdown "x\rplain" = "x\rplain" :=
  ⟨c7_identity _ (by decide) (by decide) (by decide) (by decide) (by decide)
      (by decide) (by decide),
   c7_identity _ (by decide) (by decide) (by decide) (by decide) (by decide)
      (by decide) (by decide)⟩

/-- C2: for the three supported layout keys, the spacing resolver
returns exactly the default-table values when no overrides are given
(whether `spacing` is absent or present with both fields absent), each
present non-zero override wins for its field independently, and the
default table is standard 20/10, compact 15/5, spacious 25/15.  The
result is a total `Spacing` record, so both fields are always
populated. -/
theorem c2_resolve_spacing (l : String)
    (hl : l = "standard" ∨ l = "compact" ∨ l = "spacious")
    (t : Template) (hlay : t.layout = some l) :
    (t.spacing = none → getSpacing t = spacingDefault l) ∧
    (t.spacing = some ⟨none, none⟩ → getSpacing t = spacingDefault l) ∧
    (∀ ov v, t.spacing = some ov → ov.sectionMargin = some v → v ≠ 0 →
      (getSpacing t).sectionMargin = v) ∧
    (∀ ov v, t.spacing = some ov → ov.itemMargin = some v → v ≠ 0 →
      (getSpacing t).itemMargin = v) ∧
    spacingDefault "standard" = ⟨20, 10⟩ ∧
    spacingDefault "compact" = ⟨15, 5⟩ ∧
    spacingDefault "spacious" = ⟨25, 15⟩ := by
  have hne : l ≠ "" := by
    rcases hl with h | h | h <;> simp [h]
  have hkey : layoutKey t = l := by
    simp [layoutKey, hlay, hne]
  refine ⟨?_, ?_, ?_, ?_, by decide, by decide, by decide⟩
  · intro hs
    simp [getSpacing, hkey, hs, orDefault]
  · intro hs
    simp [getSpacing, hkey, hs, orDefault]
  · intro ov v hsp hsec hv
    simp [getSpacing, hkey, hsp, hsec, orDefault, hv]
  · intro ov v hsp hitm hv
    simp [getSpacing, hkey, hsp, hitm, orDefault, hv]

/-- C2 witness: the compact layout with overrides 7/3 resolves to 7/3;
with no overrides it resolves to the compact defaults. -/
theorem c2_resolve_spacing_witness :
    (getSpacing ⟨"t", "T", sampleColors, none, some ⟨some 7, some 3⟩, some "compact"⟩).sectionMargin = 7 ∧
    (getSpacing ⟨"t", "T", sampleColors, none, some ⟨some 7, some 3⟩, some "compact"⟩).itemMargin = 3 ∧
    getSpacing ⟨"t", "T", sampleColors, none, none, some "compact"⟩ = spacingDefault "compact" := by
  refine ⟨?_, ?_, ?_⟩
  · exact (c2_resolve_spacing "compact" (by simp) _ rfl).2.2.1 ⟨some 7, some 3⟩ 7 rfl rfl
      (by decide)
  · exact (c2_resolve_spacing "compact" (by simp) _ rfl).2.2.2.1 ⟨some 7, some 3⟩ 3 rfl rfl
      (by decide)
  · exact (c2_resolve_spacing "compact" (by simp) _ rfl).1 rfl

/-- C3 counterexample: `"constructor"` is a layout key outside
`{standard, compact, spacious}`, yet with no overrides the resolver
does not return the standard defaults: the lookup
`spacingDefaults["constructor"]` hits the truthy inherited
`Object.prototype.constructor`, the `||` fallback is skipped, and both
margins resolve to `undefined` rather than 20/10. -/
theorem c3_proto_layout_cex :
    getSpacingJS ⟨"t", "T", sampleColors, none, none, some "constructor"⟩ =
      ⟨none, none⟩ ∧
    getSpacingJS ⟨"t", "T", sampleColors, none, none, some "constructor"⟩ ≠
      ⟨some 20, some 10⟩ ∧
    "constructor" ≠ "standard" ∧ "constructor" ≠ "compact" ∧
    "constructor" ≠ "spacious" := by
  refine ⟨by decide, by decide, by decide, by decide, by decide⟩

/-- C3 as amended: for `sidebar` — and any layout key outside
`{standard, compact, spacious}` that is not a property name inherited
from `Object.prototype` — the resolver, absent overrides, returns the
standard defaults 20/10, while the `sidebar` value still selects the
two-region document structure.  At inherited prototype names such as
`constructor` the source instead resolves both margins to
`undefined`. -/
theorem c3_sidebar_spacing (l : String) (h1 : l ≠ "standard") (h2 : l ≠ "compact")
    (h3 : l ≠ "spacious") (hp : l ∉ objectProtoProps)
    (t : Template) (hlay : t.layout = some l) (hsp : t.spacing = none)
    (d : ResumeData) (hd : d.template.layout = some "sidebar") :
    getSpacingJS t = ⟨some 20, some 10⟩ ∧
    generateResumeHTML d = htmlSidebarDoc d := by
  constructor
  · by_cases he : l = ""
    · subst he
      simp [getSpacingJS, layoutKey, hlay, hsp, spacingDefaultsLookup, orDefault]
    · simp [getSpacingJS, layoutKey, hlay, hsp, he, spacingDefaultsLookup, h1, h2, h3,
        hp, orDefault]
  · exact genHTML_sidebar d hd

/-- C3 witness: evaluated at the sidebar sample template. -/
theorem c3_sidebar_spacing_witness :
    getSpacingJS (sampleTemplate "sidebar") = ⟨some 20, some 10⟩ ∧
    generateResumeHTML (sampleData "sidebar") = htmlSidebarDoc (sampleData "sidebar") :=
  c3_sidebar_spacing "sidebar" (by decide) (by decide) (by decide) (by decide)
    (sampleTemplate "sidebar") rfl rfl (sampleData "sidebar") rfl

set_option maxRecDepth 40000 in
/-- C4: the composed document is the sidebar variant (flex ruleset
present, two-region body) exactly when `layout` is `sidebar`, and the
linear variant (flex ruleset entirely absent, single region) for every
other layout value; on samples of each affected layout the marker
strings `display: flex` and `.resume-content` occur in the document if
and only if the layout is `sidebar`. -/
theorem c4_layout_selection (d : ResumeData) :
    (d.template.layout = some "sidebar" →
      generateResumeHTML d = htmlSidebarDoc d ∧
      ∃ u v, (generateResumeHTML d).data = u ++ styleFlexRuleset.data ++ v) ∧
    (d.template.layout ≠ some "sidebar" →
      generateResumeHTML d = htmlLinearDoc d) ∧
    containsL "display: flex".data (generateResumeHTML (sampleData "sidebar")).data = true ∧
    containsL ".resume-content".data (generateResumeHTML (sampleData "sidebar")).data = true ∧
    containsL "display: flex".data (generateResumeHTML (sampleData "standard")).data = false ∧
    containsL ".resume-content".data (generateResumeHTML (sampleData "standard")).data = false ∧
    containsL "display: flex".data (generateResumeHTML (sampleData "compact")).data = false ∧
    containsL "display: flex".data (generateResumeHTML (sampleData "spacious")).data = false := by
  refine ⟨fun h => ⟨genHTML_sidebar d h, ?_⟩, genHTML_linear d, by decide, by decide,
    by decide, by decide, by decide, by decide⟩
  rw [genHTML_sidebar d h]
  refine ⟨(stylePre d.template (getSpacing d.template) ++ accentFillRule d.template
    ++ styleMid d.template ++ accentBorderRule d.template ++ stylePost).data,
    (styleClose ++ sidebarBody d ++ docClose).data, ?_⟩
  simp [htmlSidebarDoc, String.data_append, List.append_assoc]

/-- C4 witness: the two implications evaluated at concrete sidebar and
standard samples. -/
theorem c4_layout_selection_witness :
    generateResumeHTML (sampleData "sidebar") = htmlSidebarDoc (sampleData "sidebar") ∧
    generateResumeHTML (sampleData "standard") = htmlLinearDoc (sampleData "standard") :=
  ⟨((c4_layout_selection (sampleData "sidebar")).1 rfl).1,
   (c4_layout_selection (sampleData "standard")).2.1 (by decide)⟩

/-- C8: for every template, the compiled stylesheet gives keyword chips
a fill of the accent color followed by the hex-alpha suffix `20` and a
border of the accent color followed by the suffix `40`; numerically
`0x20 / 255` is within one percent of 12% and `0x40 / 255` within one
percent of 25%. -/
theorem c8_accent_alpha (d : ResumeData) :
    (∃ u v, (generateResumeHTML d).data =
      u ++ ("background-color: " ++ d.template.colors.accent ++ "20;").data ++ v) ∧
    (∃ u v, (generateResumeHTML d).data =
      u ++ ("border: 1px solid " ++ d.template.colors.accent ++ "40;").data ++ v) ∧
    |(32 : ℚ) / 255 - 12 / 100| < 1 / 100 ∧
    |(64 : ℚ) / 255 - 25 / 100| < 1 / 100 := by
  refine ⟨⟨(stylePre d.template (getSpacing d.template)).data,
      (styleMid d.template ++ accentBorderRule d.template ++ stylePost
        ++ (if d.template.layout = some "sidebar" then styleFlexRuleset else "")
        ++ styleClose
        ++ (if d.template.layout = some "sidebar" then sidebarBody d else linearBody d)
        ++ docClose).data, ?_⟩,
    ⟨(stylePre d.template (getSpacing d.template) ++ accentFillRule d.template
        ++ styleMid d.template).data,
      (stylePost
        ++ (if d.template.layout = some "sidebar" then styleFlexRuleset else "")
        ++ styleClose
        ++ (if d.template.layout = some "sidebar" then sidebarBody d else linearBody d)
        ++ docClose).data, ?_⟩,
    by rw [abs_lt]; constructor <;> norm_num, by rw [abs_lt]; constructor <;> norm_num⟩
  · simp [generateResumeHTML, accentFillRule, String.data_append, List.append_assoc]
  · simp [generateResumeHTML, accentBorderRule, String.data_append, List.append_assoc]

/-- C9: the composer is deterministic — identical inputs produce
byte-identical documents; the output is a pure function of the input. -/
theorem c9_deterministic (d d' : ResumeData) (h : d = d') :
    generateResumeHTML d = generateResumeHTML d' := by
  rw [h]

/-- C9 witness: evaluated at the standard sample. -/
theorem c9_deterministic_witness :
    generateResumeHTML (sampleData "standard") = generateResumeHTML (sampleData "standard") :=
  c9_deterministic (sampleData "standard") (sampleData "standard") rfl

/-- A valid request body whose pipeline can reach the browser stages. -/
def okBody : ReqBody :=
  ⟨some ⟨"# Hi", some ["X"], sampleTemplate "standard"⟩, some "modern"⟩

set_option maxRecDepth 40000 in
/-- C1 counterexample: with a valid request, a successful
`puppeteer.launch` and a failing `browser.newPage()`, the handler
answers with the 500 response while the acquired browser instance is
never closed — the claim that the instance is closed on every failure
path is false on the code (the `catch` block of server.js lines 79-85
contains no `browser.close()`). -/
theorem c1_browser_close_cex :
    (handleGeneratePdf ⟨true, false, true, true⟩ okBody).launched = true ∧
    (handleGeneratePdf ⟨true, false, true, true⟩ okBody).closed = false ∧
    (handleGeneratePdf ⟨true, false, true, true⟩ okBody).response =
      PdfResponse.serverError "Failed to generate PDF" newPageFailMsg := by
  refine ⟨?_, ?_, ?_⟩ <;> decide

/-- C1 as amended: when the browser instance is acquired it is closed
exactly on the success path — the handler closes the browser if and
only if it answers with the PDF; on every failure path after
acquisition the instance leaks. -/
theorem c1_browser_close_amended (env : BrowserEnv) (body : ReqBody) :
    ((handleGeneratePdf env body).closed = true ↔
      ∃ p, (handleGeneratePdf env body).response = PdfResponse.okPdf p) ∧
    ((handleGeneratePdf env body).closed = true →
      (handleGeneratePdf env body).launched = true) := by
  rcases body with ⟨ord, otid⟩
  rcases ord with _ | rd
  · simp [handleGeneratePdf]
  · rcases otid with _ | tid
    · simp [handleGeneratePdf]
    · by_cases ht : tid = ""
      · simp [handleGeneratePdf, ht]
      · rcases rd with ⟨c, ks, t⟩
        rcases ks with _ | ks
        · simp [handleGeneratePdf, ht, composeRaw]
        · rcases env with ⟨l, n, s, p⟩
          cases l <;> cases n <;> cases s <;> cases p <;>
            simp [handleGeneratePdf, ht, composeRaw]

set_option maxRecDepth 40000 in
/-- C1 amended witness: on the all-stages-succeed environment the
browser is closed, and the closure implies it was launched. -/
theorem c1_browser_close_amended_witness :
    (handleGeneratePdf ⟨true, true, true, true⟩ okBody).closed = true ∧
    (handleGeneratePdf ⟨true, true, true, true⟩ okBody).launched = true := by
  have h := c1_browser_close_amended ⟨true, true, true, true⟩ okBody
  have hc : (handleGeneratePdf ⟨true, true, true, true⟩ okBody).closed = true := by decide
  exact ⟨hc, h.2 hc⟩

/-- C10: a present `resumeData` without `keywords` passes the 400
validation; the `TypeError` thrown by `resumeData.keywords.map` during
document composition is caught at the request boundary and answered
with the generic 500 response, before any browser is launched — so no
PDF bytes are ever sent (the response is the `serverError`
constructor, not `badRequest` and not `okPdf`). -/
theorem c10_missing_keywords (env : BrowserEnv) (rd : RawResume) (tid : String)
    (htid : tid ≠ "") (hks : rd.keywords = none) :
    (handleGeneratePdf env ⟨some rd, some tid⟩).response =
      PdfResponse.serverError "Failed to generate PDF" mapUndefinedMsg ∧
    (handleGeneratePdf env ⟨some rd, some tid⟩).launched = false ∧
    (handleGeneratePdf env ⟨some rd, some tid⟩).closed = false := by
  refine ⟨?_, ?_, ?_⟩ <;> simp [handleGeneratePdf, htid, composeRaw, hks]

/-- C10 witness: evaluated at a concrete keyword-less request. -/
theorem c10_missing_keywords_witness :
    (handleGeneratePdf ⟨true, true, true, true⟩
        ⟨some ⟨"# Hi", none, sampleTemplate "standard"⟩, some "modern"⟩).response =
      PdfResponse.serverError "Failed to generate PDF" mapUndefinedMsg ∧
    (handleGeneratePdf ⟨true, true, true, true⟩
        ⟨some ⟨"# Hi", none, sampleTemplate "standard"⟩, some "modern"⟩).launched = false ∧
    (handleGeneratePdf ⟨true, true, true, true⟩
        ⟨some ⟨"# Hi", none, sampleTemplate "standard"⟩, some "modern"⟩).closed = false :=
  c10_missing_keywords ⟨true, true, true, true⟩
    ⟨"# Hi", none, sampleTemplate "standard"⟩ "modern" (by decide) rfl

end PdfGen
